import Mathlib

/-!
Verification of the subcohort-selection engine of `generate_bids_subcohorts.py`
(bids_filtering). The pandas dataframes are shallowly embedded as lists of
association-list rows; the five core functions (`create_count_table`,
`filter_by_datatype`, `filter_by_metadata`, `filter_by_protocol_counts`, and the
orchestrator `run`) are translated line by line from the source.
-/

namespace BidsFiltering

/-- Row of a string-valued dataframe: an association list from column name to
cell value. A column absent from the list models a null/missing cell. -/
abbrev Row := List (String × String)

/-- DF is a dataframe: a list of rows. -/
abbrev DF := List Row

/-- Lookup of a cell, `none` when the column is absent/null in this row. -/
def Row.get? : Row → String → Option String
  | [], _ => none
  | (c, v) :: r, t => if c = t then some v else Row.get? r t

/-- Lookup of a cell with the empty string as default. The source code only
ever applies this to columns present in the table (pandas would raise a
KeyError otherwise). -/
def Row.get (r : Row) (t : String) : String :=
  (Row.get? r t).getD ""

/-- Replace the value of column `t` (used only to state session-relabelling
invariance; leaves the row unchanged when the column is absent). -/
def Row.set : Row → String → String → Row
  | [], _, _ => []
  | (c, v) :: r, t, w => (if c = t then (c, w) else (c, v)) :: Row.set r t w

/-- Embedding of `filter_by_datatype(bids_df, datatypes)` (source lines
103-112): keep rows whose `datatype` is in `datatypes`, compute per subject the
number of distinct datatypes among those rows, keep subjects whose count equals
`len(datatypes)`, and return the kept-datatype rows of the kept subjects. -/
def filter_by_datatype (bids_df : DF) (datatypes : List String) : DF :=
  let filtered_df := bids_df.filter (fun r => decide (Row.get r "datatype" ∈ datatypes))
  let participants_with_all_datatypes :=
    ((filtered_df.map (fun r => Row.get r "sub")).dedup).filter
      (fun s =>
        decide ((((filtered_df.filter (fun r => decide (Row.get r "sub" = s))).map
          (fun r => Row.get r "datatype")).dedup).length = datatypes.length))
  filtered_df.filter (fun r => decide (Row.get r "sub" ∈ participants_with_all_datatypes))

/-- Distinct datatypes of subject `s` among the datatype-selected rows of
`bids_df`; the grouping pools all of the subject's rows across sessions. -/
def retained_datatypes (bids_df : DF) (datatypes : List String) (s : String) : List String :=
  (((bids_df.filter (fun r => decide (Row.get r "datatype" ∈ datatypes))).filter
    (fun r => decide (Row.get r "sub" = s))).map (fun r => Row.get r "datatype")).dedup

/-- Subjects having some metadata row whose `tag` cell is in the allow-list
`value`; embeds `metadata_df[metadata_df[tag].isin(value)]['sub']` (line 121).
A null/absent cell never matches, as with pandas `isin`. -/
def subs_matching_tag (metadata_df : DF) (tag : String) (value : List String) : List String :=
  (metadata_df.filter (fun r =>
    match Row.get? r tag with
    | some v => decide (v ∈ value)
    | none => false)).map (fun r => Row.get r "sub")

/-- Embedding of `filter_by_metadata(metadata_df, metadata_criteria)` (source
lines 114-124): start from all subjects of the table, intersect per
(tag, allow-list) pair with the subjects matching that tag, and return the rows
of the surviving subjects. Python set intersection is embedded as a membership
filter (only membership in the participant set is consumed). -/
def filter_by_metadata (metadata_df : DF) (metadata_criteria : List (String × List String)) : DF :=
  let participants_with_metadata := (metadata_df.map (fun r => Row.get r "sub")).dedup
  let participants := metadata_criteria.foldl
    (fun acc tv => acc.filter (fun s => decide (s ∈ subs_matching_tag metadata_df tv.1 tv.2)))
    participants_with_metadata
  metadata_df.filter (fun r => decide (Row.get r "sub" ∈ participants))

/-- Row of a count table: the grouping-key cells plus the integer count
columns produced by `create_count_table`. -/
structure CountRow where
  key : Row
  counts : List (String × Nat)
deriving DecidableEq, Repr

/-- Lookup in the integer columns of a count row (0 when absent; the source
would raise a KeyError on an absent column, which no claim exercises). -/
def lookupNat : List (String × Nat) → String → Nat
  | [], _ => 0
  | (c, v) :: r, t => if c = t then v else lookupNat r t

/-- Count-column cell of a count row. -/
def CountRow.getCount (r : CountRow) (t : String) : Nat :=
  lookupNat r.counts t

/-- Session cell of a count row (the `ses` grouping column). -/
def CountRow.ses (r : CountRow) : String :=
  Row.get r.key "ses"

/-- Subject cell of a count row (the `sub` grouping column). -/
def CountRow.sub (r : CountRow) : String :=
  Row.get r.key "sub"

/-- Grouping key of a bids row under `groupby_cols`. -/
def groupKey (groupby_cols : List String) (r : Row) : List String :=
  groupby_cols.map (fun c => Row.get r c)

/-- Number of distinct values of column `c` within the group of `bids_df` rows
sharing the grouping key of row `r`. -/
def n_distinct_in_group (bids_df : DF) (groupby_cols : List String) (r : Row) (c : String) :
    Nat :=
  (((bids_df.filter (fun q => decide (groupKey groupby_cols q = groupKey groupby_cols r))).map
    (fun q => Row.get q c)).dedup).length

/-- Embedding of `create_count_table(bids_df, groupby_cols, count_cols)`
(source lines 86-101): one output row per distinct grouping key, carrying for
each counting column `c` the number of distinct `c`-values within the group,
in a column renamed to `n_` followed by the column name and `s`
(`rename_dict = col to n_{col}s` in the source). Row order of the output is
immaterial to every claim (pandas sorts group keys; we keep dedup order). -/
def create_count_table (bids_df : DF) (groupby_cols count_cols : List String) :
    List CountRow :=
  ((bids_df.map (fun r => groupKey groupby_cols r)).dedup).map
    (fun k =>
      let grp := bids_df.filter (fun r => decide (groupKey groupby_cols r = k))
      { key := groupby_cols.zip k,
        counts := count_cols.map
          (fun c => ("n_" ++ c ++ "s", ((grp.map (fun r => Row.get r c)).dedup).length)) })

/-- Count dataframe as passed to `filter_by_protocol_counts`: its rows plus the
`criteria_met` boolean column, which is absent (`none`) before the call and is
assigned in place by the call (`count_df['criteria_met'] = ...`, lines
146-148). -/
structure CountDF where
  rows : List CountRow
  criteria_met : Option (List Bool)
deriving DecidableEq, Repr

/-- Per-group boolean mask at one row: the source starts from an all-True mask
and ANDs one comparison per (tag, value) pair of the criterion group — equality
when `force_exact_counts`, at-least otherwise (lines 134-139). -/
def groupMask (r : CountRow) (crit : List (String × Nat)) (force_exact_counts : Bool) : Bool :=
  crit.foldl
    (fun mask tv =>
      mask &&
        (if force_exact_counts then decide (r.getCount tv.1 = tv.2)
         else decide (tv.2 ≤ r.getCount tv.1)))
    true

/-- Value of the combined `criteria_met` mask at one row: OR of the group masks
(False for the empty protocol specification). -/
def criteriaMet (r : CountRow) (protocol_spec : List (List (String × Nat)))
    (force_exact_counts : Bool) : Bool :=
  protocol_spec.foldl (fun b crit => b || groupMask r crit force_exact_counts) false

/-- Group the criteria-met rows by session and collect the distinct subjects of
each session; embeds `groupby(['ses'])["sub"].unique()` (line 150). Key order
is immaterial to every claim (pandas sorts session keys; we keep dedup order). -/
def groupBySesUniqueSub (rows : List CountRow) : List (String × List String) :=
  ((rows.map (fun r => r.ses)).dedup).map
    (fun s => (s, ((rows.filter (fun r => decide (r.ses = s))).map (fun r => r.sub)).dedup))

/-- Embedding of `filter_by_protocol_counts(count_df, protocol_spec,
force_exact_counts)` (source lines 126-156). The source builds one boolean
mask per criterion group, OR-reduces them (all-False when the specification is
empty), assigns the result to the `criteria_met` column of the ARGUMENT
dataframe in place, and returns the per-session unique-subject table of the
criteria-met rows. The in-place assignment is embedded by returning the
post-call state of `count_df` alongside the result. -/
def filter_by_protocol_counts (count_df : CountDF)
    (protocol_spec : List (List (String × Nat))) (force_exact_counts : Bool) :
    CountDF × List (String × List String) :=
  let criteria := protocol_spec.map
    (fun crit => count_df.rows.map (fun r => groupMask r crit force_exact_counts))
  let combined_criteria : List Bool :=
    if criteria.length > 0 then
      criteria.foldl (fun acc m => acc.zipWith (fun a b => a || b) m)
        (count_df.rows.map (fun _ => false))
    else
      count_df.rows.map (fun _ => false)
  let count_df2 : CountDF := { rows := count_df.rows, criteria_met := some combined_criteria }
  let met_rows := ((count_df.rows.zip combined_criteria).filter (fun p => p.2)).map
    (fun p => p.1)
  (count_df2, groupBySesUniqueSub met_rows)

/-- Filter-specification document as the `run` orchestrator dereferences it.
Each `Option` marks one dynamic key lookup of the source: `none` models the key
being absent from the JSON (a Python `KeyError` on access).
`scanner_metadata` is `filter_spec["scanner_metadata"]` (its `sidecar_tags`
list is only consumed by the metadata extractor, upstream of this embedding);
`sidecar_tag_criteria` models the chained lookup
`filter_spec["criteria"]["scanner_metadata"]["sidecar_tags"]` (a missing key at
either level raises); `extra_options` is
`filter_spec["criteria"]["extra_options"]`, whose inner option is the
`.get("force_exact_counts", False)` lookup, which never raises. -/
structure CriteriaJson where
  extra_options : Option (Option Bool)
  sidecar_tag_criteria : Option (List (String × List String))
  datatypes : Option (List String)
  protocol_spec : Option (List (List (String × Nat)))
deriving DecidableEq, Repr

/-- Top-level filter specification entry (see `CriteriaJson`). -/
structure FilterSpecJson where
  scanner_metadata : Option (List String)
  criteria : Option CriteriaJson
  groupby_cols : Option (List String)
  count_cols : Option (List String)
deriving DecidableEq, Repr

/-- Outcome of one orchestrator run for one specification: the specification
output tables written, in order; the missing key of the first failing lookup,
if any (the source raises a bare Python `KeyError` — no `ConfigurationError`
class exists in the code); and the per-session participant lists on success. -/
structure RunOutcome where
  writes : List String
  error : Option String
  participants : List (String × List String)
deriving DecidableEq, Repr

/-- Embedding of the orchestrator `run` (source lines 215-272) from the point
where the named specification has been selected, with the imaging index
`bids_df` and the scanner-metadata table `metadata_df` already loaded (the read
path; the index/metadata cache files are written upstream of any specification
key access and are not per-specification outputs). Lookups happen in source
order: `scanner_metadata` (line 220), `criteria` then `extra_options` (line
225), `criteria.scanner_metadata.sidecar_tags` (line 229) before the metadata
filter runs, `datatypes` (line 237) before the datatype filter runs,
`groupby_cols`/`count_cols` (lines 252-253) before the count table is built
and written, and `protocol_spec` (line 258) only AFTER `count_table.tsv` has
been written. The availability-summary bookkeeping (merged per-session counts,
printed at line 268) is elided: no claim concerns it. -/
def run (filter_spec : FilterSpecJson) (bids_df metadata_df : DF) : RunOutcome :=
  match filter_spec.scanner_metadata with
  | none => ⟨[], some "scanner_metadata", []⟩
  | some _scanner_metadata =>
    match filter_spec.criteria with
    | none => ⟨[], some "criteria", []⟩
    | some crit =>
      match crit.extra_options with
      | none => ⟨[], some "extra_options", []⟩
      | some extra_options =>
        let force_exact_counts := extra_options.getD false
        match crit.sidecar_tag_criteria with
        | none => ⟨[], some "criteria.scanner_metadata.sidecar_tags", []⟩
        | some metadata_criteria =>
          let metadata_filter_df := filter_by_metadata metadata_df metadata_criteria
          let metadata_participants :=
            (metadata_filter_df.map (fun r => Row.get r "sub")).dedup
          match crit.datatypes with
          | none => ⟨[], some "datatypes", []⟩
          | some datatypes =>
            let datatype_filter_df := filter_by_datatype bids_df datatypes
            let datatype_participants :=
              (datatype_filter_df.map (fun r => Row.get r "sub")).dedup
            let count_participants :=
              datatype_participants.filter (fun s => decide (s ∈ metadata_participants))
            let bids_df2 :=
              bids_df.filter (fun r => decide (Row.get r "sub" ∈ count_participants))
            match filter_spec.groupby_cols with
            | none => ⟨[], some "groupby_cols", []⟩
            | some groupby_cols =>
              match filter_spec.count_cols with
              | none => ⟨[], some "count_cols", []⟩
              | some count_cols =>
                let count_table := create_count_table bids_df2 groupby_cols count_cols
                match crit.protocol_spec with
                | none => ⟨["count_table.tsv"], some "protocol_spec", []⟩
                | some protocol_spec =>
                  let filtered :=
                    (filter_by_protocol_counts ⟨count_table, none⟩ protocol_spec
                      force_exact_counts).2
                  ⟨["count_table.tsv", "filtered_participants.tsv"] ++
                      filtered.map (fun p => "participants_" ++ p.1 ++ ".txt"),
                    none, filtered⟩

/-! Lemmas about the protocol-criteria evaluator. -/

theorem foldl_and_eq_all {α : Type} (l : List α) (f : α → Bool) (b : Bool) :
    l.foldl (fun m x => m && f x) b = (b && l.all f) := by
  induction l generalizing b with
  | nil => simp
  | cons x xs ih => simp [ih, Bool.and_assoc]

theorem foldl_or_eq_any {α : Type} (l : List α) (f : α → Bool) (b : Bool) :
    l.foldl (fun m x => m || f x) b = (b || l.any f) := by
  induction l generalizing b with
  | nil => simp
  | cons x xs ih => simp [ih, Bool.or_assoc]

theorem zipWith_or_map {α : Type} (l : List α) (f g : α → Bool) :
    List.zipWith (fun a b => a || b) (l.map f) (l.map g) = l.map (fun x => f x || g x) := by
  induction l with
  | nil => rfl
  | cons x xs ih => simp [ih]

theorem foldl_or_masks (specs : List (List (String × Nat))) (force : Bool)
    (rows : List CountRow) (accf : CountRow → Bool) :
    specs.foldl
      (fun acc crit =>
        List.zipWith (fun a b => a || b) acc (rows.map (fun r => groupMask r crit force)))
      (rows.map accf)
    = rows.map (fun r => specs.foldl (fun b crit => b || groupMask r crit force) (accf r)) := by
  induction specs generalizing accf with
  | nil => rfl
  | cons c cs ih =>
    simp only [List.foldl_cons]
    rw [zipWith_or_map]
    exact ih (fun r => accf r || groupMask r c force)

theorem filter_zip_mask (rows : List CountRow) (f : CountRow → Bool) :
    ((rows.zip (rows.map f)).filter (fun p => p.2)).map (fun p => p.1) = rows.filter f := by
  induction rows with
  | nil => rfl
  | cons r rs ih =>
    simp only [List.map_cons, List.zip_cons_cons, List.filter_cons]
    cases h : f r <;> simp [h, ih]

theorem fppc_eq (count_df : CountDF) (protocol_spec : List (List (String × Nat)))
    (force_exact_counts : Bool) :
    filter_by_protocol_counts count_df protocol_spec force_exact_counts
    = (⟨count_df.rows,
        some (count_df.rows.map (fun r => criteriaMet r protocol_spec force_exact_counts))⟩,
       groupBySesUniqueSub
        (count_df.rows.filter (fun r => criteriaMet r protocol_spec force_exact_counts))) := by
  unfold filter_by_protocol_counts criteriaMet
  cases protocol_spec with
  | nil =>
    simp only [List.map_nil, List.length_nil, gt_iff_lt, Nat.lt_irrefl, if_false,
      List.foldl_nil]
    rw [filter_zip_mask]
  | cons c cs =>
    simp only [List.map_cons, List.length_cons, gt_iff_lt, Nat.succ_pos, if_true,
      List.foldl_cons, List.foldl_map]
    rw [zipWith_or_map, foldl_or_masks, filter_zip_mask]

theorem groupMask_eq_true_iff (r : CountRow) (crit : List (String × Nat)) (force : Bool) :
    groupMask r crit force = true
    ↔ ∀ tv ∈ crit,
        (if force = true then r.getCount tv.1 = tv.2 else tv.2 ≤ r.getCount tv.1) := by
  unfold groupMask
  rw [foldl_and_eq_all, Bool.true_and, List.all_eq_true]
  refine forall_congr' (fun tv => forall_congr' (fun _ => ?_))
  cases force <;> simp

theorem criteriaMet_eq_true_iff (r : CountRow) (protocol_spec : List (List (String × Nat)))
    (force : Bool) :
    criteriaMet r protocol_spec force = true
    ↔ ∃ g ∈ protocol_spec,
        ∀ tv ∈ g,
          (if force = true then r.getCount tv.1 = tv.2 else tv.2 ≤ r.getCount tv.1) := by
  unfold criteriaMet
  rw [foldl_or_eq_any, Bool.false_or, List.any_eq_true]
  exact exists_congr (fun g => and_congr_right (fun _ => groupMask_eq_true_iff r g force))

theorem criteriaMet_mono (r : CountRow) (protocol_spec : List (List (String × Nat))) :
    criteriaMet r protocol_spec true = true → criteriaMet r protocol_spec false = true := by
  rw [criteriaMet_eq_true_iff, criteriaMet_eq_true_iff]
  rintro ⟨g, hg, hall⟩
  refine ⟨g, hg, fun tv htv => ?_⟩
  have h := hall tv htv
  simp only [if_true, if_pos rfl] at h
  simp only [Bool.false_eq_true, if_false]
  exact le_of_eq h.symm

/-! Lemmas about the metadata filter. -/

theorem perm_all_eq {α : Type} {l₁ l₂ : List α} (h : l₁.Perm l₂) (f : α → Bool) :
    l₁.all f = l₂.all f := by
  rw [Bool.eq_iff_iff, List.all_eq_true, List.all_eq_true]
  exact ⟨fun H x hx => H x (h.mem_iff.mpr hx), fun H x hx => H x (h.mem_iff.mp hx)⟩

theorem foldl_filter_eq_filter_all {α β : Type} (criteria : List β) (init : List α)
    (p : β → α → Bool) :
    criteria.foldl (fun acc tv => acc.filter (p tv)) init
    = init.filter (fun s => criteria.all (fun tv => p tv s)) := by
  induction criteria generalizing init with
  | nil => simp
  | cons c cs ih =>
    rw [List.foldl_cons, ih, List.filter_filter]
    apply List.filter_congr
    intro s _
    simp [Bool.and_comm]

theorem filter_by_metadata_eq (metadata_df : DF)
    (metadata_criteria : List (String × List String)) :
    filter_by_metadata metadata_df metadata_criteria
    = metadata_df.filter (fun r =>
        decide (Row.get r "sub" ∈
          ((metadata_df.map (fun q => Row.get q "sub")).dedup).filter
            (fun s => metadata_criteria.all
              (fun tv => decide (s ∈ subs_matching_tag metadata_df tv.1 tv.2))))) := by
  unfold filter_by_metadata
  dsimp only
  rw [foldl_filter_eq_filter_all]

theorem mem_filter_by_metadata (metadata_df : DF)
    (metadata_criteria : List (String × List String)) (r : Row) :
    r ∈ filter_by_metadata metadata_df metadata_criteria
    ↔ r ∈ metadata_df ∧ ∀ tv ∈ metadata_criteria,
        Row.get r "sub" ∈ subs_matching_tag metadata_df tv.1 tv.2 := by
  rw [filter_by_metadata_eq, List.mem_filter]
  constructor
  · rintro ⟨hdf, hp⟩
    simp only [decide_eq_true_eq, List.mem_filter, List.all_eq_true,
      decide_eq_true_eq] at hp
    exact ⟨hdf, hp.2⟩
  · rintro ⟨hdf, hall⟩
    refine ⟨hdf, ?_⟩
    simp only [decide_eq_true_eq, List.mem_filter, List.all_eq_true, decide_eq_true_eq]
    refine ⟨?_, hall⟩
    rw [List.mem_dedup, List.mem_map]
    exact ⟨r, hdf, rfl⟩

/-! Lemmas about the datatype filter. -/

theorem Row.get?_set_ne (r : Row) (t w u : String) (h : t ≠ u) :
    Row.get? (Row.set r t w) u = Row.get? r u := by
  induction r with
  | nil => rfl
  | cons p r ih =>
    obtain ⟨c, v⟩ := p
    simp only [Row.set]
    by_cases hc : c = t
    · subst hc
      rw [if_pos rfl]
      simp only [Row.get?]
      rw [if_neg h, if_neg h]
      exact ih
    · rw [if_neg hc]
      simp only [Row.get?]
      by_cases hu : c = u
      · rw [if_pos hu, if_pos hu]
      · rw [if_neg hu, if_neg hu]
        exact ih

theorem Row.get_set_ne (r : Row) (t w u : String) (h : t ≠ u) :
    Row.get (Row.set r t w) u = Row.get r u := by
  unfold Row.get
  rw [Row.get?_set_ne r t w u h]

theorem mem_filter_by_datatype (bids_df : DF) (datatypes : List String) (r : Row) :
    r ∈ filter_by_datatype bids_df datatypes
    ↔ r ∈ bids_df ∧ Row.get r "datatype" ∈ datatypes
      ∧ (retained_datatypes bids_df datatypes (Row.get r "sub")).length
          = datatypes.length := by
  unfold filter_by_datatype retained_datatypes
  constructor
  · intro h
    rw [List.mem_filter] at h
    obtain ⟨hf, hmem⟩ := h
    have hf2 := hf
    rw [List.mem_filter] at hf2
    obtain ⟨hdf, hdt⟩ := hf2
    simp only [decide_eq_true_eq] at hdt hmem
    rw [List.mem_filter] at hmem
    obtain ⟨_, hcount⟩ := hmem
    simp only [decide_eq_true_eq] at hcount
    exact ⟨hdf, hdt, hcount⟩
  · rintro ⟨hdf, hdt, hcount⟩
    have hf : r ∈ bids_df.filter (fun q => decide (Row.get q "datatype" ∈ datatypes)) := by
      rw [List.mem_filter]
      exact ⟨hdf, by simp [hdt]⟩
    rw [List.mem_filter]
    refine ⟨hf, ?_⟩
    simp only [decide_eq_true_eq]
    rw [List.mem_filter]
    refine ⟨?_, by simp only [decide_eq_true_eq]; simpa using hcount⟩
    rw [List.mem_dedup, List.mem_map]
    exact ⟨r, hf, rfl⟩

theorem filter_by_datatype_map_invariant (bids_df : DF) (datatypes : List String)
    (m : Row → Row)
    (hsub : ∀ r, Row.get (m r) "sub" = Row.get r "sub")
    (hdt : ∀ r, Row.get (m r) "datatype" = Row.get r "datatype") :
    filter_by_datatype (bids_df.map m) datatypes
    = (filter_by_datatype bids_df datatypes).map m := by
  unfold filter_by_datatype
  dsimp only
  have h1 : (bids_df.map m).filter (fun r => decide (Row.get r "datatype" ∈ datatypes))
      = (bids_df.filter (fun r => decide (Row.get r "datatype" ∈ datatypes))).map m := by
    rw [List.filter_map]
    congr 1
    apply List.filter_congr
    intro r _
    simp [Function.comp, hdt]
  rw [h1]
  have h2 : ((bids_df.filter (fun r => decide (Row.get r "datatype" ∈ datatypes))).map m).map
        (fun r => Row.get r "sub")
      = (bids_df.filter (fun r => decide (Row.get r "datatype" ∈ datatypes))).map
        (fun r => Row.get r "sub") := by
    rw [List.map_map]
    apply List.map_congr_left
    intro r _
    simp [Function.comp, hsub]
  rw [h2]
  have h3 : ∀ s,
      (((bids_df.filter (fun r => decide (Row.get r "datatype" ∈ datatypes))).map m).filter
        (fun r => decide (Row.get r "sub" = s))).map (fun r => Row.get r "datatype")
      = ((bids_df.filter (fun r => decide (Row.get r "datatype" ∈ datatypes))).filter
        (fun r => decide (Row.get r "sub" = s))).map (fun r => Row.get r "datatype") := by
    intro s
    rw [List.filter_map, List.map_map]
    have : (bids_df.filter (fun r => decide (Row.get r "datatype" ∈ datatypes))).filter
          ((fun r => decide (Row.get r "sub" = s)) ∘ m)
        = (bids_df.filter (fun r => decide (Row.get r "datatype" ∈ datatypes))).filter
          (fun r => decide (Row.get r "sub" = s)) := by
      apply List.filter_congr
      intro r _
      simp [Function.comp, hsub]
    rw [this]
    apply List.map_congr_left
    intro r _
    simp [Function.comp, hdt]
  have h4 :
      (((bids_df.filter (fun r => decide (Row.get r "datatype" ∈ datatypes))).map
        (fun r => Row.get r "sub")).dedup).filter
        (fun s => decide
          (((((bids_df.filter (fun r => decide (Row.get r "datatype" ∈ datatypes))).map
              m).filter (fun r => decide (Row.get r "sub" = s))).map
            (fun r => Row.get r "datatype")).dedup.length = datatypes.length))
      = (((bids_df.filter (fun r => decide (Row.get r "datatype" ∈ datatypes))).map
        (fun r => Row.get r "sub")).dedup).filter
        (fun s => decide
          ((((bids_df.filter (fun r => decide (Row.get r "datatype" ∈ datatypes))).filter
              (fun r => decide (Row.get r "sub" = s))).map
            (fun r => Row.get r "datatype")).dedup.length = datatypes.length)) := by
    apply List.filter_congr
    intro s _
    rw [h3 s]
  rw [h4]
  rw [List.filter_map]
  congr 1
  apply List.filter_congr
  intro r _
  simp [Function.comp, hsub]

/-! Lemmas about the count-table builder. -/

theorem mem_create_count_table (bids_df : DF) (groupby_cols count_cols : List String)
    (cr : CountRow) :
    cr ∈ create_count_table bids_df groupby_cols count_cols
    ↔ ∃ r ∈ bids_df, cr.key = groupby_cols.zip (groupKey groupby_cols r)
        ∧ cr.counts = count_cols.map
            (fun c => ("n_" ++ c ++ "s", n_distinct_in_group bids_df groupby_cols r c)) := by
  unfold create_count_table n_distinct_in_group
  rw [List.mem_map]
  constructor
  · rintro ⟨k, hk, rfl⟩
    rw [List.mem_dedup, List.mem_map] at hk
    obtain ⟨r, hr, rfl⟩ := hk
    exact ⟨r, hr, rfl, rfl⟩
  · rintro ⟨r, hr, hkey, hcounts⟩
    refine ⟨groupKey groupby_cols r, ?_, ?_⟩
    · rw [List.mem_dedup, List.mem_map]
      exact ⟨r, hr, rfl⟩
    · dsimp only
      obtain ⟨ck, cc⟩ := cr
      dsimp only at hkey hcounts
      rw [hkey, hcounts]

theorem mem_groupBySesUniqueSub (rows : List CountRow) (s p : String) :
    (∃ l, (s, l) ∈ groupBySesUniqueSub rows ∧ p ∈ l)
    ↔ ∃ r ∈ rows, r.ses = s ∧ r.sub = p := by
  unfold groupBySesUniqueSub
  constructor
  · rintro ⟨l, hl, hp⟩
    rw [List.mem_map] at hl
    obtain ⟨t, ht, heq⟩ := hl
    obtain ⟨rfl, rfl⟩ := Prod.mk.injEq .. ▸ heq
    rw [List.mem_dedup, List.mem_map] at hp
    obtain ⟨r, hr, rfl⟩ := hp
    rw [List.mem_filter] at hr
    exact ⟨r, hr.1, by simpa using hr.2, rfl⟩
  · rintro ⟨r, hr, hses, hsub⟩
    refine ⟨((rows.filter (fun q => decide (q.ses = s))).map (fun q => q.sub)).dedup, ?_, ?_⟩
    · rw [List.mem_map]
      refine ⟨s, ?_, rfl⟩
      rw [List.mem_dedup, List.mem_map]
      exact ⟨r, hr, hses⟩
    · rw [List.mem_dedup, List.mem_map]
      refine ⟨r, ?_, hsub⟩
      rw [List.mem_filter]
      exact ⟨hr, by simp [hses]⟩

end BidsFiltering

section Examples
open BidsFiltering

example :
    filter_by_datatype
      [[("sub", "A"), ("ses", "1"), ("datatype", "anat")],
       [("sub", "A"), ("ses", "2"), ("datatype", "func")],
       [("sub", "B"), ("ses", "1"), ("datatype", "anat")]]
      ["anat", "func"]
    = [[("sub", "A"), ("ses", "1"), ("datatype", "anat")],
       [("sub", "A"), ("ses", "2"), ("datatype", "func")]] := by decide

example :
    filter_by_datatype [[("sub", "A"), ("ses", "1"), ("datatype", "anat")]] [] = [] := by
  decide

example :
    create_count_table
      [[("sub", "A"), ("ses", "1"), ("run", "1")],
       [("sub", "A"), ("ses", "1"), ("run", "2")],
       [("sub", "B"), ("ses", "1"), ("run", "1")]]
      ["sub", "ses"] ["run"]
    = [{ key := [("sub", "A"), ("ses", "1")], counts := [("n_runs", 2)] },
       { key := [("sub", "B"), ("ses", "1")], counts := [("n_runs", 1)] }] := by decide

example :
    (filter_by_protocol_counts
      ⟨[{ key := [("sub", "A"), ("ses", "1")], counts := [("n_runs", 2)] },
        { key := [("sub", "B"), ("ses", "1")], counts := [("n_runs", 1)] }], none⟩
      [[("n_runs", 2)]] true).2
    = [("1", ["A"])] := by decide

example :
    (filter_by_protocol_counts
      ⟨[{ key := [("sub", "A"), ("ses", "1")], counts := [("n_runs", 2)] },
        { key := [("sub", "B"), ("ses", "1")], counts := [("n_runs", 1)] }], none⟩
      [[("n_runs", 1)]] false).2
    = [("1", ["A", "B"])] := by decide

example :
    filter_by_metadata
      [[("sub", "A"), ("ses", "1"), ("Model", "Prisma")],
       [("sub", "B"), ("ses", "1"), ("Model", "Trio")]]
      [("Model", ["Prisma"])]
    = [[("sub", "A"), ("ses", "1"), ("Model", "Prisma")]] := by decide

end Examples

namespace BidsFiltering

/-- Claim C1: the protocol evaluator marks a row as meeting criteria (the
`criteria_met` column it assigns) iff some criterion group of `protocol_spec`
is satisfied in full at that row — every (count_column, required_value) pair of
the group holding with equality when `force_exact_counts` is true and with
at-least when it is false; pairs within a group are conjoined, groups are
disjoined. -/
theorem claim_C1 (count_df : CountDF) (protocol_spec : List (List (String × Nat)))
    (force_exact_counts : Bool) :
    (filter_by_protocol_counts count_df protocol_spec force_exact_counts).1.criteria_met
    = some (count_df.rows.map (fun r =>
        decide (∃ g ∈ protocol_spec, ∀ tv ∈ g,
          if force_exact_counts = true then r.getCount tv.1 = tv.2
          else tv.2 ≤ r.getCount tv.1))) := by
  rw [fppc_eq]
  dsimp only
  congr 1
  apply List.map_congr_left
  intro r _
  have h := criteriaMet_eq_true_iff r protocol_spec force_exact_counts
  have h2 : decide (criteriaMet r protocol_spec force_exact_counts = true)
      = decide (∃ g ∈ protocol_spec, ∀ tv ∈ g,
          if force_exact_counts = true then r.getCount tv.1 = tv.2
          else tv.2 ≤ r.getCount tv.1) := decide_eq_decide.mpr h
  rwa [Bool.decide_coe] at h2

/-- Claim C2: with an empty `protocol_spec` the evaluator marks no row as
meeting criteria (`criteria_met` is assigned all-False) and returns an empty
per-session participant table — fail-closed, not fail-open. -/
theorem claim_C2 (count_df : CountDF) (force_exact_counts : Bool) :
    (filter_by_protocol_counts count_df [] force_exact_counts).2 = []
    ∧ (filter_by_protocol_counts count_df [] force_exact_counts).1.criteria_met
      = some (count_df.rows.map (fun _ => false)) := by
  rw [fppc_eq]
  refine ⟨?_, rfl⟩
  have : count_df.rows.filter (fun r => criteriaMet r [] force_exact_counts) = [] := by
    simp [criteriaMet]
  rw [this]
  rfl

/-- Claim C6 counterexample: the evaluator does NOT leave its `count_df`
argument unchanged — called on a table without a `criteria_met` column, it
assigns one in place, so the post-call state of the argument differs from the
pre-call state. -/
theorem claim_C6_counterexample :
    (filter_by_protocol_counts
        ⟨[{ key := [("sub", "A"), ("ses", "1")], counts := [("n_runs", 1)] }], none⟩
        [] false).1
    ≠ (⟨[{ key := [("sub", "A"), ("ses", "1")], counts := [("n_runs", 1)] }], none⟩ :
        CountDF) := by
  decide

/-- Claim C6 (amended): the evaluator is deterministic in
(count_table, protocol_spec, force_exact) — its participant table is exactly
the per-session unique-subject grouping of the rows whose combined criteria
mask is true — and its only effect on the `count_df` argument is assigning the
`criteria_met` column to that mask: the rows themselves are unchanged. -/
theorem claim_C6 (count_df : CountDF) (protocol_spec : List (List (String × Nat)))
    (force_exact_counts : Bool) :
    (filter_by_protocol_counts count_df protocol_spec force_exact_counts).1.rows
      = count_df.rows
    ∧ (filter_by_protocol_counts count_df protocol_spec force_exact_counts).1.criteria_met
      = some (count_df.rows.map (fun r => criteriaMet r protocol_spec force_exact_counts))
    ∧ (filter_by_protocol_counts count_df protocol_spec force_exact_counts).2
      = groupBySesUniqueSub
          (count_df.rows.filter (fun r => criteriaMet r protocol_spec force_exact_counts)) := by
  rw [fppc_eq]
  exact ⟨rfl, rfl, rfl⟩

/-- Claim C7: on the same count table and criterion groups, every participant
the evaluator reports for a session under `force_exact_counts = true` is also
reported for that session under `force_exact_counts = false` — exact equality
tightens, never loosens, the match. -/
theorem claim_C7 (count_df : CountDF) (protocol_spec : List (List (String × Nat)))
    (s p : String)
    (h : ∃ l, (s, l) ∈ (filter_by_protocol_counts count_df protocol_spec true).2 ∧ p ∈ l) :
    ∃ l, (s, l) ∈ (filter_by_protocol_counts count_df protocol_spec false).2 ∧ p ∈ l := by
  rw [fppc_eq] at h ⊢
  rw [mem_groupBySesUniqueSub] at h ⊢
  obtain ⟨r, hr, hses, hsub⟩ := h
  rw [List.mem_filter] at hr
  refine ⟨r, ?_, hses, hsub⟩
  rw [List.mem_filter]
  exact ⟨hr.1, criteriaMet_mono r protocol_spec hr.2⟩

/-- Claim C7 witness: concrete instantiation at a one-row count table with
`n_runs = 2` and the single group requiring `n_runs = 2`. -/
theorem claim_C7_witness :
    ∃ l, ("1", l) ∈ (filter_by_protocol_counts
        ⟨[{ key := [("sub", "A"), ("ses", "1")], counts := [("n_runs", 2)] }], none⟩
        [[("n_runs", 2)]] false).2 ∧ "A" ∈ l :=
  claim_C7
    ⟨[{ key := [("sub", "A"), ("ses", "1")], counts := [("n_runs", 2)] }], none⟩
    [[("n_runs", 2)]] "1" "A" ⟨["A"], by decide, by decide⟩

/-- Claim C3: the datatype filter retains exactly the rows whose `datatype` is
one of the required datatypes and whose subject has, among the
datatype-selected rows, a number of distinct datatypes equal to the length of
`required_datatypes` — AND across datatypes via a count-equality test, not a
merely-one test. -/
theorem claim_C3 (bids_df : DF) (datatypes : List String) (_hne : datatypes ≠ [])
    (r : Row) :
    r ∈ filter_by_datatype bids_df datatypes
    ↔ r ∈ bids_df ∧ Row.get r "datatype" ∈ datatypes
      ∧ (retained_datatypes bids_df datatypes (Row.get r "sub")).length
          = datatypes.length :=
  mem_filter_by_datatype bids_df datatypes r

/-- Claim C3 witness: subject A has both required datatypes and their anat row
is retained; nothing else is needed to discharge the nonemptiness hypothesis. -/
theorem claim_C3_witness :
    [("sub", "A"), ("ses", "1"), ("datatype", "anat")] ∈
      filter_by_datatype
        [[("sub", "A"), ("ses", "1"), ("datatype", "anat")],
         [("sub", "A"), ("ses", "1"), ("datatype", "func")]]
        ["anat", "func"] :=
  (claim_C3
      [[("sub", "A"), ("ses", "1"), ("datatype", "anat")],
       [("sub", "A"), ("ses", "1"), ("datatype", "func")]]
      ["anat", "func"] (by decide)
      [("sub", "A"), ("ses", "1"), ("datatype", "anat")]).mpr
    ⟨by decide, by decide, by decide⟩

/-- Claim C5 counterexample: with an empty `required_datatypes` list the
datatype filter is NOT a pass-through — a subject present in the index is
absent from the output (`isin([])` selects nothing, so the result is empty). -/
theorem claim_C5_counterexample :
    ([("sub", "A"), ("ses", "1"), ("datatype", "anat")] : Row) ∈
      ([[("sub", "A"), ("ses", "1"), ("datatype", "anat")]] : DF)
    ∧ ([("sub", "A"), ("ses", "1"), ("datatype", "anat")] : Row) ∉
      filter_by_datatype [[("sub", "A"), ("ses", "1"), ("datatype", "anat")]] [] := by
  decide

/-- Claim C5 (amended): calling the datatype filter with an empty
`required_datatypes` list returns the empty dataframe — no subject matches
(fail-closed), the opposite of a degenerate pass-through. -/
theorem claim_C5 (bids_df : DF) : filter_by_datatype bids_df [] = [] := by
  simp [filter_by_datatype]

/-- Claim C10: the datatype filter decides membership per subject with the
subject's rows pooled across all sessions. Relabelling the `ses` cell of every
row (by an arbitrary row-dependent function) commutes with the filter, so
session boundaries play no role in the decision; and any row of the index
whose datatype is required and whose subject's pooled distinct-datatype count
equals the number of required datatypes is retained — in particular a subject
whose required datatypes occur only in different sessions keeps all of their
datatype-matching rows. -/
theorem claim_C10 (bids_df : DF) (datatypes : List String) (f : Row → String) :
    filter_by_datatype (bids_df.map (fun r => Row.set r "ses" (f r))) datatypes
      = (filter_by_datatype bids_df datatypes).map (fun r => Row.set r "ses" (f r))
    ∧ ∀ r ∈ bids_df, Row.get r "datatype" ∈ datatypes →
        (retained_datatypes bids_df datatypes (Row.get r "sub")).length
            = datatypes.length →
        r ∈ filter_by_datatype bids_df datatypes := by
  constructor
  · apply filter_by_datatype_map_invariant
    · intro r
      exact Row.get_set_ne r "ses" (f r) "sub" (by decide)
    · intro r
      exact Row.get_set_ne r "ses" (f r) "datatype" (by decide)
  · intro r hr hdt hcount
    exact (mem_filter_by_datatype bids_df datatypes r).mpr ⟨hr, hdt, hcount⟩

/-- Claim C10 witness: subject A has anat only in session 1 and func only in
session 2; with required datatypes [anat, func] the session-1 anat row is
still retained. -/
theorem claim_C10_witness :
    [("sub", "A"), ("ses", "1"), ("datatype", "anat")] ∈
      filter_by_datatype
        [[("sub", "A"), ("ses", "1"), ("datatype", "anat")],
         [("sub", "A"), ("ses", "2"), ("datatype", "func")]]
        ["anat", "func"] :=
  (claim_C10
      [[("sub", "A"), ("ses", "1"), ("datatype", "anat")],
       [("sub", "A"), ("ses", "2"), ("datatype", "func")]]
      ["anat", "func"] (fun _ => "relabelled")).2
    [("sub", "A"), ("ses", "1"), ("datatype", "anat")]
    (by decide) (by decide) (by decide)

/-- Claim C8: the metadata filter returns the rows of the subjects satisfying
every listed (tag, allow-list) constraint — logical AND across tags via
iterated subject-set intersection — and the result does not depend on the
order in which the tag constraints are processed. -/
theorem claim_C8 (metadata_df : DF) (criteria₁ criteria₂ : List (String × List String))
    (hperm : criteria₁.Perm criteria₂) :
    filter_by_metadata metadata_df criteria₁ = filter_by_metadata metadata_df criteria₂
    ∧ ∀ r, r ∈ filter_by_metadata metadata_df criteria₁
        ↔ r ∈ metadata_df ∧ ∀ tv ∈ criteria₁,
            Row.get r "sub" ∈ subs_matching_tag metadata_df tv.1 tv.2 := by
  constructor
  · rw [filter_by_metadata_eq, filter_by_metadata_eq]
    have hp : ((metadata_df.map (fun q => Row.get q "sub")).dedup).filter
          (fun s => criteria₁.all
            (fun tv => decide (s ∈ subs_matching_tag metadata_df tv.1 tv.2)))
        = ((metadata_df.map (fun q => Row.get q "sub")).dedup).filter
          (fun s => criteria₂.all
            (fun tv => decide (s ∈ subs_matching_tag metadata_df tv.1 tv.2))) := by
      apply List.filter_congr
      intro s _
      exact perm_all_eq hperm _
    rw [hp]
  · intro r
    exact mem_filter_by_metadata metadata_df criteria₁ r

/-- Claim C8 witness: swapping two tag constraints leaves the filtered table
unchanged on a concrete two-subject metadata table. -/
theorem claim_C8_witness :
    filter_by_metadata
      [[("sub", "A"), ("Model", "Prisma"), ("Software", "X")],
       [("sub", "B"), ("Model", "Trio"), ("Software", "X")]]
      [("Model", ["Prisma"]), ("Software", ["X"])]
    = filter_by_metadata
      [[("sub", "A"), ("Model", "Prisma"), ("Software", "X")],
       [("sub", "B"), ("Model", "Trio"), ("Software", "X")]]
      [("Software", ["X"]), ("Model", ["Prisma"])] :=
  (claim_C8
    [[("sub", "A"), ("Model", "Prisma"), ("Software", "X")],
     [("sub", "B"), ("Model", "Trio"), ("Software", "X")]]
    [("Model", ["Prisma"]), ("Software", ["X"])]
    [("Software", ["X"]), ("Model", ["Prisma"])]
    (List.Perm.swap _ _ _)).1

/-- Claim C9 counterexample: for counting column `run` the emitted column is
named `n_runs` (the source appends a trailing `s`: `n_{col}s`), not `n_run` as
the claim's `n_<count_col>` naming scheme states. -/
theorem claim_C9_counterexample :
    (create_count_table
        [[("sub", "A"), ("ses", "1"), ("run", "1")]] ["sub", "ses"] ["run"]).map
      (fun cr => cr.counts.map Prod.fst)
    = [["n_runs"]]
    ∧ "n_runs" ≠ "n_run" := by
  decide

/-- Claim C9 (amended): the count-table builder emits exactly one row per
distinct grouping key of the index, and that row carries, for each counting
column `c`, the number of distinct `c`-values within the group (repeated rows
with an identical value count once) in a column named `n_` ++ c ++ `s`
(`n_<count_col>s`, with a trailing `s`, e.g. `n_runs` for `run`). -/
theorem claim_C9 (bids_df : DF) (groupby_cols count_cols : List String)
    (_hg : groupby_cols ≠ []) (_hc : count_cols ≠ [])
    (_hcols : ∀ r ∈ bids_df, ∀ c ∈ groupby_cols ++ count_cols,
      (Row.get? r c).isSome = true) :
    ∀ cr, cr ∈ create_count_table bids_df groupby_cols count_cols
      ↔ ∃ r ∈ bids_df, cr.key = groupby_cols.zip (groupKey groupby_cols r)
          ∧ cr.counts = count_cols.map
              (fun c => ("n_" ++ c ++ "s", n_distinct_in_group bids_df groupby_cols r c)) :=
  fun cr => mem_create_count_table bids_df groupby_cols count_cols cr

/-- Claim C9 witness: subject A with two distinct runs in session 1 yields the
count row with `n_runs = 2`, instantiated through the claim theorem. -/
theorem claim_C9_witness :
    ({ key := [("sub", "A"), ("ses", "1")], counts := [("n_runs", 2)] } : CountRow) ∈
      create_count_table
        [[("sub", "A"), ("ses", "1"), ("run", "1")],
         [("sub", "A"), ("ses", "1"), ("run", "2")]]
        ["sub", "ses"] ["run"] :=
  (claim_C9
      [[("sub", "A"), ("ses", "1"), ("run", "1")],
       [("sub", "A"), ("ses", "1"), ("run", "2")]]
      ["sub", "ses"] ["run"] (by decide) (by decide) (by decide)
      { key := [("sub", "A"), ("ses", "1")], counts := [("n_runs", 2)] }).mpr
    ⟨[("sub", "A"), ("ses", "1"), ("run", "1")], by decide, by decide, by decide⟩

/-- Claim C4 counterexample: a specification missing only `protocol_spec` does
NOT fail before filtering with no partial writes — the orchestrator runs the
metadata and datatype filters, builds and WRITES the specification's count
table, and only then hits the missing key (a bare `KeyError`; no
`ConfigurationError` class exists in the source). -/
theorem claim_C4_counterexample :
    run
      ⟨some [], some ⟨some none, some [], some ["anat"], none⟩,
        some ["sub", "ses"], some ["run"]⟩
      [[("sub", "A"), ("ses", "1"), ("datatype", "anat"), ("run", "1")]]
      [[("sub", "A"), ("ses", "1")]]
    = ⟨["count_table.tsv"], some "protocol_spec", []⟩
    ∧ (run
        ⟨some [], some ⟨some none, some [], some ["anat"], none⟩,
          some ["sub", "ses"], some ["run"]⟩
        [[("sub", "A"), ("ses", "1"), ("datatype", "anat"), ("run", "1")]]
        [[("sub", "A"), ("ses", "1")]]).writes ≠ [] := by
  decide

/-- Claim C4 (amended): a missing required key aborts the run with a KeyError
at its first access, and whether partial writes occur depends on the key:
missing `criteria` or missing `datatypes` abort before any specification
output table is written, but missing `protocol_spec` is only detected after
`count_table.tsv` has already been written for the specification. -/
theorem claim_C4 (bids_df metadata_df : DF) (spec : FilterSpecJson) :
    (spec.scanner_metadata ≠ none → spec.criteria = none →
      run spec bids_df metadata_df = ⟨[], some "criteria", []⟩)
    ∧ (∀ c, spec.scanner_metadata ≠ none → spec.criteria = some c →
        c.extra_options ≠ none → c.sidecar_tag_criteria ≠ none → c.datatypes = none →
        run spec bids_df metadata_df = ⟨[], some "datatypes", []⟩)
    ∧ (∀ c, spec.scanner_metadata ≠ none → spec.criteria = some c →
        c.extra_options ≠ none → c.sidecar_tag_criteria ≠ none → c.datatypes ≠ none →
        spec.groupby_cols ≠ none → spec.count_cols ≠ none → c.protocol_spec = none →
        (run spec bids_df metadata_df).writes = ["count_table.tsv"]
        ∧ (run spec bids_df metadata_df).error = some "protocol_spec") := by
  refine ⟨?_, ?_, ?_⟩
  · intro hsm hcrit
    obtain ⟨sm, hsm⟩ := Option.ne_none_iff_exists'.mp hsm
    simp [run, hsm, hcrit]
  · intro c hsm hcrit heo hst hdt
    obtain ⟨sm, hsm⟩ := Option.ne_none_iff_exists'.mp hsm
    obtain ⟨eo, heo⟩ := Option.ne_none_iff_exists'.mp heo
    obtain ⟨st, hst⟩ := Option.ne_none_iff_exists'.mp hst
    simp [run, hsm, hcrit, heo, hst, hdt]
  · intro c hsm hcrit heo hst hdt hg hc hps
    obtain ⟨sm, hsm⟩ := Option.ne_none_iff_exists'.mp hsm
    obtain ⟨eo, heo⟩ := Option.ne_none_iff_exists'.mp heo
    obtain ⟨st, hst⟩ := Option.ne_none_iff_exists'.mp hst
    obtain ⟨dt, hdt⟩ := Option.ne_none_iff_exists'.mp hdt
    obtain ⟨g, hg⟩ := Option.ne_none_iff_exists'.mp hg
    obtain ⟨cc, hc⟩ := Option.ne_none_iff_exists'.mp hc
    simp [run, hsm, hcrit, heo, hst, hdt, hg, hc, hps]

/-- Claim C4 witness: the amended theorem instantiated at a specification
missing only `datatypes` — the run aborts with no writes at all. -/
theorem claim_C4_witness :
    run
      ⟨some [], some ⟨some none, some [], none, some [[("n_runs", 1)]]⟩,
        some ["sub", "ses"], some ["run"]⟩
      [] []
    = ⟨[], some "datatypes", []⟩ :=
  (claim_C4 [] []
      ⟨some [], some ⟨some none, some [], none, some [[("n_runs", 1)]]⟩,
        some ["sub", "ses"], some ["run"]⟩).2.1
    ⟨some none, some [], none, some [[("n_runs", 1)]]⟩
    (by decide) rfl (by decide) (by decide) rfl

end BidsFiltering
